import Mathlib

/-!
Verification development for the Repsly-to-Excel export tool
(`repsly2excel.py`).  The Python source is shallowly embedded: JSON
values become the inductive type `JVal`, the pagination loop of
`process_data_async` becomes a fuel-indexed recursive function over an
abstract HTTP server (a map from request URL to an optional JSON
response, `none` standing for a non-200 status or a transport error,
exactly the two cases in which `fetch_data` returns `None`), and the
spreadsheet library is modelled at the value level (a sheet is a list
of rows of cells).  External collaborators (aiohttp, openpyxl, the
`json` module, the file system) are modelled at their interface
boundary, as the spec prescribes; all functions of the repository
itself are translated statement by statement from the source.
-/

namespace Repsly

/-- A JSON value as produced by `response.json()` / `json.load`.
Numbers are modelled as integers (the cursor values the program
manipulates are integral IDs; floating point is out of scope). -/
inductive JVal where
  | null : JVal
  | bool : Bool → JVal
  | int : Int → JVal
  | str : String → JVal
  | arr : List JVal → JVal
  | obj : List (String × JVal) → JVal

/-- Python truthiness (`if data`): `None`, `False`, `0`, `""`, `[]`,
`{}` are falsy, everything else truthy. -/
def pyTruthy : JVal → Bool
  | .null => false
  | .bool b => b
  | .int n => n != 0
  | .str s => !s.isEmpty
  | .arr xs => !xs.isEmpty
  | .obj kvs => !kvs.isEmpty

mutual
/-- Python `==` on JSON values: `bool` and `int` compare by numeric
value (`True == 1`), lists compare elementwise, dicts compare by size
plus key-wise value lookup (insertion order ignored; Python dict keys
are unique, so the one-sided subset check together with the length
test is the Python relation).  Scalar/container mixes are unequal. -/
def pyEq : JVal → JVal → Bool
  | .null, b => match b with | .null => true | _ => false
  | .bool a, b =>
    match b with
    | .bool c => a == c
    | .int c => (if a then (1 : Int) else 0) == c
    | _ => false
  | .int a, b =>
    match b with
    | .int c => a == c
    | .bool c => a == (if c then (1 : Int) else 0)
    | _ => false
  | .str a, b => match b with | .str c => a == c | _ => false
  | .arr xs, b => match b with | .arr ys => pyEqList xs ys | _ => false
  | .obj kvs, b =>
    match b with
    | .obj kvs2 => kvs.length == kvs2.length && pyEqObjSub kvs kvs2
    | _ => false

def pyEqList : List JVal → List JVal → Bool
  | [], ys => ys.isEmpty
  | x :: xs, ys =>
    match ys with
    | [] => false
    | y :: ys2 => pyEq x y && pyEqList xs ys2

def pyEqObjSub : List (String × JVal) → List (String × JVal) → Bool
  | [], _ => true
  | (k, v) :: rest, b =>
    (match List.lookup k b with | some w => pyEq v w | none => false)
      && pyEqObjSub rest b
end

/-- Python `key in data` for a string key: key membership for dicts,
element membership for lists, substring test is not needed for string
receivers in this program (the responses tested are dicts or `None`);
scalars would raise `TypeError` in Python and are never reached behind
the `if data and key_name in data` guard, so they yield `false`. -/
def pyIn (k : String) : JVal → Bool
  | .obj kvs => kvs.any (fun p => p.1 = k)
  | .arr xs => xs.any (fun v => pyEq v (.str k))
  | _ => false

/-- Python `data[key]` on a dict (first binding wins; dicts have unique
keys).  Only reached behind a successful `key in data` test on a dict;
other shapes would raise in Python and are unreachable here, they
default to `null`. -/
def pyIndex (data : JVal) (k : String) : JVal :=
  match data with
  | .obj kvs => (List.lookup k kvs).getD .null
  | _ => .null

/-- Python `d.get(k)`: `None` when the key is absent.  Called on record
objects (`item.get(header)`) and metadata objects; non-dict receivers
would raise `AttributeError` and are not produced by the modelled
server shapes, they yield `none`. -/
def pyGet (data : JVal) (k : String) : Option JVal :=
  match data with
  | .obj kvs => List.lookup k kvs
  | _ => none

/-- Python `d.get(k, default)`.  The default is used only when the key
is absent; a key stored with JSON null yields that null (Python
`None`), not the default. -/
def pyGetD (data : JVal) (k : String) (dflt : JVal) : JVal :=
  (pyGet data k).getD dflt

/-- Python `v is None`: JSON null deserializes to the Python `None`
singleton, and no other JSON value is identical to `None`. -/
def isNull : JVal → Bool
  | .null => true
  | _ => false

/-- Python iteration `for item in items`: a list yields its elements, a
dict its keys, a string its characters; iterating a scalar raises
`TypeError` in Python and yields `[]` here (never reached by the
modelled responses). -/
def jIter : JVal → List JVal
  | .arr xs => xs
  | .obj kvs => kvs.map (fun p => .str p.1)
  | .str s => s.toList.map (fun c => .str (String.mk [c]))
  | _ => []

/-- Python `sep.join(strs)`. -/
def pyJoin (sep : String) : List String → String
  | [] => ""
  | [x] => x
  | x :: y :: rest => x ++ sep ++ pyJoin sep (y :: rest)

/-- `repr` of a Python string: quoted with `'`, or with `"` when the
string contains a single quote but no double quote; the chosen quote
and backslashes are escaped.  (Control-character escapes are not
modelled; no claim exercises them.) -/
def pyReprStrBody (q : Char) (s : String) : String :=
  String.mk (s.toList.foldr
    (fun c acc => if c = '\\' || c = q then '\\' :: c :: acc else c :: acc) [])

def pyReprStr (s : String) : String :=
  if s.toList.contains '\'' && !(s.toList.contains '"') then
    "\"" ++ pyReprStrBody '"' s ++ "\""
  else
    "'" ++ pyReprStrBody '\'' s ++ "'"

mutual
/-- Python `repr` on JSON values: `repr` of a list is
`'[' + ', '.join(map(repr, xs)) + ']'`, of a dict
`'\x7b' + ', '.join(repr(k) + ': ' + repr(v)) + '\x7d'`. -/
def pyRepr : JVal → String
  | .null => "None"
  | .bool b => if b then "True" else "False"
  | .int n => toString n
  | .str s => pyReprStr s
  | .arr xs => "[" ++ pyJoin ", " (pyReprList xs) ++ "]"
  | .obj kvs => "\x7b" ++ pyJoin ", " (pyReprObj kvs) ++ "\x7d"

def pyReprList : List JVal → List String
  | [] => []
  | x :: xs => pyRepr x :: pyReprList xs

def pyReprObj : List (String × JVal) → List String
  | [] => []
  | (k, v) :: rest => (pyReprStr k ++ ": " ++ pyRepr v) :: pyReprObj rest
end

/-- Python `str` on JSON values: the identity on strings, `repr`-based
printing on containers, `True`/`False`/`None` on the other scalars. -/
def pyStr : JVal → String
  | .str s => s
  | v => pyRepr v

/-- A spreadsheet cell, as appended by `ws.append`: either `None` or a
JSON scalar / string produced by `process_field`. -/
abbrev Cell := Option JVal

/-- A spreadsheet row (`ws.append(row)` appends one of these). -/
abbrev Row := List Cell

/-- `process_field(value)` (source lines 147-152): a list becomes the
`', '`-join of the elements' `str`, a dict the `', '`-join of
`f"{k}:{v}"` over its entries in order, everything else (including
`None` for a missing key) passes through unchanged. -/
def process_field : Cell → Cell
  | some (.arr xs) => some (.str (pyJoin ", " (xs.map pyStr)))
  | some (.obj kvs) => some (.str (pyJoin ", " (kvs.map (fun p => p.1 ++ ":" ++ pyStr p.2))))
  | v => v

/-- One projected row:
`[process_field(item.get(header)) for header in headers]`. -/
def makeRow (headers : List String) (item : JVal) : Row :=
  headers.map (fun h => process_field (pyGet item h))

/-! ## The ById / ByTimestamp pagination loop (`process_data_async`)

`fetch_data` (source lines 135-145) returns `(await response.json(),
response)` on HTTP 200 and `(None, _)` on any other status or on a
transport exception.  Only the first component is consulted by the
loop, so the server is modelled as a function from the request URL to
`Option JVal`, with `none` covering exactly the non-200 and
transport-error cases.  The loop itself is fuel-indexed: the source's
`while True` performs one fetch per iteration, and every theorem about
termination is stated uniformly in the fuel, so a bound that holds for
all fuels is a genuine bound on the number of fetches. -/

/-- The static configuration `process_data_async` receives from its
per-endpoint caller: URL path segment, JSON result key, column list,
and the `use_timestamp` flag selecting `LastTimeStamp` vs `LastID`. -/
structure EndpointCfg where
  path : String
  key_name : String
  headers : List String
  use_timestamp : Bool

def BASE_URL : String := "https://api.repsly.com/v3/export"

/-- `url = f"{BASE_URL}/{endpoint}/{last_value}"` (f-strings format via
`str`). -/
def urlFor (ep : EndpointCfg) (last_value : JVal) : String :=
  BASE_URL ++ "/" ++ ep.path ++ "/" ++ pyStr last_value

/-- Result of one iteration of the `while True` body: the cursor after
the iteration, the rows appended by it, and whether the loop continues
(`false` for each of the source's three `break`s). -/
structure StepOut where
  cursor : JVal
  newRows : List Row
  cont : Bool

/-- The cursor value the loop body reads from a page (source lines
178-182): `meta = data.get('MetaCollectionResult', {})`, then
`meta.get('LastTimeStamp')` or `meta.get('LastID')`.  Both `get` calls
return the Python `None` singleton when the key is absent — and a key
stored with JSON null also yields `None` — so the result is a `JVal`
with `.null` standing for `None`. -/
def metaCursor (ep : EndpointCfg) (data : JVal) : JVal :=
  let meta := pyGetD data "MetaCollectionResult" (.obj [])
  if ep.use_timestamp then pyGetD meta "LastTimeStamp" .null
  else pyGetD meta "LastID" .null

/-- One iteration of the loop body of `process_data_async` (source
lines 163-193) on the fetched response `resp`:
if `data and key_name in data` fails (including a failed fetch,
`resp = none`) the loop breaks with nothing appended; otherwise every
item of `data[key_name]` is projected and appended, the new cursor is
read from `MetaCollectionResult` (`LastTimeStamp` when `use_timestamp`
else `LastID`) — `meta.get(...)` yields the Python `None` singleton
both when the key is absent and when it holds JSON null, so the value
is modelled as a `JVal` with a `.null` default, and line 184's
`new_last_value is not None` test is the `isNull` check.  The loop
breaks, with the cursor unchanged, when that value is `None` or
Python-equal to the current cursor; otherwise the cursor advances and
the loop breaks exactly when the page held fewer than 50 items.
(`wb.save` checkpoints every 50 rows have no effect on the returned
data and are not modelled.) -/
def pageStep (ep : EndpointCfg) (last_value : JVal) (resp : Option JVal) : StepOut :=
  match resp with
  | none => ⟨last_value, [], false⟩
  | some data =>
    if pyTruthy data && pyIn ep.key_name data then
      let items := jIter (pyIndex data ep.key_name)
      let newRows := items.map (makeRow ep.headers)
      let new_last_value := metaCursor ep data
      if !(isNull new_last_value) && !(pyEq new_last_value last_value) then
        if items.length < 50 then
          ⟨new_last_value, newRows, false⟩
        else
          ⟨new_last_value, newRows, true⟩
      else
        ⟨last_value, newRows, false⟩
    else
      ⟨last_value, [], false⟩

/-- The cursor value a page response reports: the
`MetaCollectionResult` field the loop would read, available only when
the response passes the `data and key_name in data` guard and the
value passes the `is not None` test (a missing key and a stored JSON
null both yield Python `None`, hence `none` here). -/
def reported (ep : EndpointCfg) (resp : Option JVal) : Option JVal :=
  match resp with
  | none => none
  | some data =>
    if pyTruthy data && pyIn ep.key_name data then
      if isNull (metaCursor ep data) then none else some (metaCursor ep data)
    else none

/-- The record list a page response carries (under the same guard). -/
def pageItems (ep : EndpointCfg) (resp : Option JVal) : Option (List JVal) :=
  match resp with
  | none => none
  | some data =>
    if pyTruthy data && pyIn ep.key_name data then
      some (jIter (pyIndex data ep.key_name))
    else none

/-- Whether a response passes the `data and key_name in data` guard. -/
def pageOk (ep : EndpointCfg) (resp : Option JVal) : Bool :=
  match resp with
  | none => false
  | some data => pyTruthy data && pyIn ep.key_name data

/-- The `while True` loop of `process_data_async`, driven by `fuel`
(one unit per permitted fetch).  Returns the number of fetches
actually issued, the final cursor, and the accumulated data rows. -/
def runLoop (ep : EndpointCfg) (server : String → Option JVal) :
    Nat → JVal → List Row → Nat × JVal × List Row
  | 0, last_value, rows => (0, last_value, rows)
  | fuel + 1, last_value, rows =>
    let st := pageStep ep last_value (server (urlFor ep last_value))
    if st.cont then
      let r := runLoop ep server fuel st.cursor (rows ++ st.newRows)
      (r.1 + 1, r.2)
    else
      (1, st.cursor, rows ++ st.newRows)

/-- `process_data_async` (source lines 154-197): creates the workbook,
appends the header row, runs the pagination loop, saves, and returns
the filename and final cursor.  The model additionally exposes the
saved sheet (header row followed by data rows, as in the file written
by `wb.save(filename)`) and the number of fetches issued. -/
def process_data_async (ep : EndpointCfg) (server : String → Option JVal)
    (fuel : Nat) (last_value : JVal) : String × JVal × List Row × Nat :=
  let filename := "Repsly_" ++ ep.key_name ++ "_Export.xlsx"
  let headerRow : Row := ep.headers.map (fun h => some (JVal.str h))
  let r := runLoop ep server fuel last_value []
  (filename, r.2.1, headerRow :: r.2.2, r.1)

/-! ## Workbook combiner, orchestrator result handling, cursor store -/

/-- A workbook as written by openpyxl: an ordered list of named sheets,
each sheet an ordered list of rows. -/
abbrev Sheet := String × List Row

/-- `create_combined_workbook(filenames)` (source lines 574-599): the
file system is a map from filename to the workbook it holds, `none`
when the file is missing or fails to load (both the `os.path.exists`
miss and the `except` around `load_workbook` skip the file).  Every
sheet of every loadable listed file is copied, by name and row values,
in order; if nothing was combined a single default sheet `"Empty"` is
created.  (The `os.remove` of each consumed source file does not
affect the returned workbook and is not modelled.) -/
def create_combined_workbook (fs : String → Option (List Sheet))
    (filenames : List String) : List Sheet :=
  let combined := filenames.foldl
    (fun acc fn =>
      match fs fn with
      | some sheets => acc ++ sheets
      | none => acc) []
  if combined.isEmpty then [("Empty", [])] else combined

/-- Python `last_ids[module] = v` on the insertion-ordered dict: update
in place when the key exists, append otherwise. -/
def setKey (m : List (String × JVal)) (k : String) (v : JVal) : List (String × JVal) :=
  if m.any (fun p => p.1 = k) then
    m.map (fun p => if p.1 = k then (k, v) else p)
  else m ++ [(k, v)]

/-- `process_module` (source lines 662-677): a known module's
processing function is invoked with `last_ids.get(module, 0)`; an
exception anywhere in it is caught and mapped to
`(module, None, None)`, as is an unknown module name.  The processing
function's outcome for a given input cursor is the `outcomes`
parameter: `.ok (filename, new_last_id)` for a normal return,
`.error ()` for a raised exception. -/
def process_module
    (outcomes : String → JVal → Except Unit (String × Option JVal))
    (isKnown : String → Bool)
    (last_ids : List (String × JVal)) (module : String) :
    String × Option String × Option JVal :=
  if isKnown module then
    match outcomes module ((List.lookup module last_ids).getD (.int 0)) with
    | .ok (fn, nl) => (module, some fn, nl)
    | .error _ => (module, none, none)
  else (module, none, none)

/-- One iteration of the result-collection loop of `main` (source
lines 684-688): a gathered `(module, filename, new_last_id)` appends
its filename when one was produced and overwrites
`last_ids[module]` when a new cursor was produced. -/
def collectStep (acc : List String × List (String × JVal))
    (r : String × Option String × Option JVal) :
    List String × List (String × JVal) :=
  (match r.2.1 with
    | some fn => acc.1 ++ [fn]
    | none => acc.1,
   match r.2.2 with
    | some nl => setKey acc.2 r.1 nl
    | none => acc.2)

/-- The result-collection loop of `main` (source lines 684-688). -/
def mainCollect (results : List (String × Option String × Option JVal))
    (last_ids : List (String × JVal)) : List String × List (String × JVal) :=
  results.foldl collectStep ([], last_ids)

/-- The combined workbook `main` saves (source lines 690-696): the
combiner applied to the filenames collected from the results. -/
def mainCombined (fs : String → Option (List Sheet))
    (results : List (String × Option String × Option JVal))
    (last_ids : List (String × JVal)) : List Sheet :=
  create_combined_workbook fs (mainCollect results last_ids).1

/-- `save_last_ids` (source lines 124-126): `json.dump(last_ids, f)`.
The `json` module is an external collaborator and is modelled at the
parse-tree level: the file afterwards holds the JSON object whose
entries are the dict's, in insertion order (which both `json.dump` and
`json.load` preserve). -/
def save_last_ids (last_ids : List (String × JVal)) : JVal :=
  JVal.obj last_ids

/-- `load_last_ids` (source lines 128-132): `{}` when the file does not
exist (`file = none`), otherwise `json.load` of its contents.  A file
holding a non-object JSON value is never produced by `save_last_ids`;
`main` would fail later on it, and it is mapped to `{}` here. -/
def load_last_ids (file : Option JVal) : List (String × JVal) :=
  match file with
  | some (JVal.obj kvs) => kvs
  | some _ => []
  | none => []

/-- The cursor values the spec's round-trip claim ranges over:
integers, strings, and `null`. -/
def isCursorScalar : JVal → Bool
  | .int _ => true
  | .str _ => true
  | .null => true
  | _ => false

/-! ## Substring occurrence counting (for the `", "` separator claim) -/

/-- The separator `', '` used by `process_field` on arrays, as a
character list. -/
def sepPat : List Char := [',', ' ']

/-- Number of positions at which `pat` occurs in `cs` (for the
two-character separator `', '` occurrences cannot overlap, so this is
Python's `str.count`). -/
def countSub (pat : List Char) : List Char → Nat
  | [] => 0
  | c :: rest =>
    (if List.isPrefixOf pat (c :: rest) then 1 else 0) + countSub pat rest

/-- Occurrences of the separator `", "` in a string. -/
def countSep (s : String) : Nat := countSub sepPat s.toList

/-! ## The "Clients" endpoint and the spec's end-to-end mock scenario -/

/-- The column list of `process_clients` (source lines 201-206). -/
def clientsHeaders : List String :=
  ["ClientID", "TimeStamp", "Code", "Name", "Active", "Tag", "Territory",
   "RepresentativeCode", "RepresentativeName", "StreetAddress", "ZIP", "City",
   "State", "Country", "Email", "Phone", "Mobile", "Website", "ContactName",
   "ContactTitle", "Note", "Status", "CustomFields", "PriceLists", "AccountCode"]

/-- The configuration `process_clients` passes to `process_data_async`
(source line 207): path `"clients"`, result key `"Clients"`,
`use_timestamp=False`. -/
def clientsEp : EndpointCfg := ⟨"clients", "Clients", clientsHeaders, false⟩

/-- First mock record of the spec's end-to-end scenario. -/
def c3rec1 : JVal :=
  .obj [("ClientID", .int 1), ("Name", .str "Acme"), ("Active", .bool true)]

/-- Second mock record of the spec's end-to-end scenario. -/
def c3rec2 : JVal :=
  .obj [("ClientID", .int 2), ("Name", .str "Globex"), ("Active", .bool false)]

/-- Page 1 of the mock server: 2 records and
`MetaCollectionResult.LastID = 42`. -/
def c3page1 : JVal :=
  .obj [("Clients", .arr [c3rec1, c3rec2]),
        ("MetaCollectionResult", .obj [("LastID", .int 42)])]

/-- Page 2 of the mock server: a response lacking the `"Clients"`
result key. -/
def c3page2 : JVal :=
  .obj [("MetaCollectionResult", .obj [("LastID", .int 42)])]

/-- The mock server of the spec's end-to-end scenario: page 1 at
cursor 0, page 2 at cursor 42. -/
def c3Server : String → Option JVal := fun url =>
  if url = urlFor clientsEp (.int 0) then some c3page1
  else if url = urlFor clientsEp (.int 42) then some c3page2
  else none

/-! ## Helper lemmas -/

theorem pageStep_not_ok (ep : EndpointCfg) (last_value : JVal)
    (resp : Option JVal) (h : pageOk ep resp = false) :
    pageStep ep last_value resp = ⟨last_value, [], false⟩ := by
  cases resp with
  | none => rfl
  | some data =>
    have h2 : (pyTruthy data && pyIn ep.key_name data) = false := h
    simp only [pageStep, h2]
    simp

theorem reported_pageItems (ep : EndpointCfg) (resp : Option JVal) (c : JVal)
    (hr : reported ep resp = some c) :
    ∃ items, pageItems ep resp = some items := by
  cases resp with
  | none => simp [reported] at hr
  | some data =>
    unfold reported at hr
    by_cases hg : (pyTruthy data && pyIn ep.key_name data) = true
    · exact ⟨jIter (pyIndex data ep.key_name), by simp [pageItems, hg]⟩
    · simp [hg] at hr

theorem pageStep_of_reported (ep : EndpointCfg) (last_value : JVal)
    (resp : Option JVal) (c : JVal) (items : List JVal)
    (hr : reported ep resp = some c) (hi : pageItems ep resp = some items) :
    pageStep ep last_value resp =
      if pyEq c last_value then ⟨last_value, items.map (makeRow ep.headers), false⟩
      else if items.length < 50 then ⟨c, items.map (makeRow ep.headers), false⟩
      else ⟨c, items.map (makeRow ep.headers), true⟩ := by
  cases resp with
  | none => simp [reported] at hr
  | some data =>
    unfold reported at hr
    unfold pageItems at hi
    unfold pageStep
    by_cases hg : (pyTruthy data && pyIn ep.key_name data) = true
    · simp only [hg, if_true] at hr hi ⊢
      have hi2 : jIter (pyIndex data ep.key_name) = items := Option.some.inj hi
      rw [hi2]
      by_cases hn : isNull (metaCursor ep data) = true
      · rw [if_pos hn] at hr
        exact absurd hr (by simp)
      · rw [if_neg hn] at hr
        have hc : metaCursor ep data = c := Option.some.inj hr
        rw [hc] at hn ⊢
        have hnb : isNull c = false := by
          cases h2 : isNull c
          · rfl
          · exact absurd h2 hn
        rw [hnb]
        cases hpe : pyEq c last_value <;> simp [hpe]
    · simp [hg] at hr

theorem runLoop_fetches_pos (ep : EndpointCfg) (server : String → Option JVal)
    (fuel : Nat) (last_value : JVal) (rows : List Row) :
    1 ≤ (runLoop ep server (fuel + 1) last_value rows).1 := by
  rw [runLoop]
  by_cases h : (pageStep ep last_value (server (urlFor ep last_value))).cont
  · simp [h]
  · simp [h]

theorem lookup_none_of_no_key (h : String) (record : List (String × JVal))
    (hk : ∀ p ∈ record, p.1 ≠ h) : List.lookup h record = none := by
  induction record with
  | nil => rfl
  | cons p rest ih =>
    obtain ⟨k, v⟩ := p
    have hp : k ≠ h := hk (k, v) (by simp)
    have hb : (h == k) = false :=
      beq_eq_false_iff_ne.mpr (fun he => hp he.symm)
    simp only [List.lookup, hb]
    exact ih (fun q hq => hk q (List.mem_cons_of_mem _ hq))

/-! ## Claims C7, C10, C9 -/

/-- Claim C7: when a page fetch returns non-200 or a transport error
(`fetch_data` yields `None`, modelled as `server url = none`), the
pagination loop terminates at that fetch, raising nothing, and the
rows and cursor accumulated on the prior successful pages pass through
to the result unchanged. -/
theorem fetch_failure_preserves_rows_cursor (ep : EndpointCfg)
    (server : String → Option JVal) (fuel : Nat) (last_value : JVal)
    (rows : List Row) (h : server (urlFor ep last_value) = none) :
    runLoop ep server (fuel + 1) last_value rows = (1, last_value, rows) := by
  rw [runLoop, h]
  simp [pageStep]

/-- Witness for C7: a loop state holding one prior row and cursor 7
hits a failing fetch and returns them unchanged after that single
fetch. -/
theorem fetch_failure_preserves_rows_cursor_witness :
    runLoop clientsEp (fun _ => none) 3 (.int 7) [[some (.int 5)]] =
      (1, .int 7, [[some (.int 5)]]) :=
  fetch_failure_preserves_rows_cursor clientsEp (fun _ => none) 2 (.int 7)
    [[some (.int 5)]] rfl

/-- Claim C10: when the very first fetch fails (non-200, transport
error, or a response failing the `data and key_name in data` guard),
`process_data_async` still saves a workbook holding exactly the header
row, and returns its filename with the input cursor unchanged. -/
theorem first_fetch_failure_header_only (ep : EndpointCfg)
    (server : String → Option JVal) (fuel : Nat) (last_value : JVal)
    (h : pageOk ep (server (urlFor ep last_value)) = false) :
    process_data_async ep server (fuel + 1) last_value =
      ("Repsly_" ++ ep.key_name ++ "_Export.xlsx", last_value,
       [ep.headers.map (fun hd => some (JVal.str hd))], 1) := by
  unfold process_data_async
  rw [runLoop, pageStep_not_ok ep last_value _ h]
  simp

/-- Witness for C10: the Clients run against a server that always
fails yields the header-only sheet, filename, unchanged cursor 0, and
one fetch. -/
theorem first_fetch_failure_header_only_witness :
    process_data_async clientsEp (fun _ => none) 5 (.int 0) =
      ("Repsly_" ++ "Clients" ++ "_Export.xlsx", .int 0,
       [clientsHeaders.map (fun hd => some (JVal.str hd))], 1) :=
  first_fetch_failure_header_only clientsEp (fun _ => none) 4 (.int 0) rfl

/-- Claim C9: saving a cursor mapping whose values are integers,
strings, or null with `save_last_ids` and loading it back with
`load_last_ids` returns an equal mapping.  (`json.dump`/`json.load`
are modelled at the parse-tree level; both preserve dict entries and
their insertion order.) -/
theorem last_ids_roundtrip (m : List (String × JVal))
    (_hv : ∀ p ∈ m, isCursorScalar p.2 = true) :
    load_last_ids (some (save_last_ids m)) = m := rfl

/-- Witness for C9: a mapping holding an integer, a string, and a null
cursor round-trips unchanged. -/
theorem last_ids_roundtrip_witness :
    load_last_ids (some (save_last_ids
      [("clients", .int 42), ("visits", .str "2024-01-01T00:00:00Z"),
       ("visitschedules", .null)])) =
      [("clients", .int 42), ("visits", .str "2024-01-01T00:00:00Z"),
       ("visitschedules", .null)] :=
  last_ids_roundtrip
    [("clients", .int 42), ("visits", .str "2024-01-01T00:00:00Z"),
     ("visitschedules", .null)]
    (by intro p hp; fin_cases hp <;> rfl)

/-! ## Claims C2, C4: loop termination -/

/-- Claim C2: if two consecutive pages report the identical cursor
value — the page fetched at cursor `c0` reports `c1`, and the page
fetched at `c1` reports a value Python-equal to `c1` — the paginator
terminates after the second page: whatever the fuel, no third fetch is
ever issued.  In particular a server that always reports one constant
cursor value can never make the loop fetch forever. -/
theorem paginator_identical_cursor_stops (ep : EndpointCfg)
    (server : String → Option JVal) (fuel : Nat) (c0 : JVal)
    (rows : List Row) (c1 c2 : JVal)
    (h1 : reported ep (server (urlFor ep c0)) = some c1)
    (h2 : reported ep (server (urlFor ep c1)) = some c2)
    (h3 : pyEq c2 c1 = true) :
    (runLoop ep server fuel c0 rows).1 ≤ 2 := by
  obtain ⟨items0, hi0⟩ := reported_pageItems ep _ c1 h1
  have hstep0 := pageStep_of_reported ep c0 (server (urlFor ep c0)) c1 items0 h1 hi0
  cases fuel with
  | zero => simp [runLoop]
  | succ n =>
    by_cases he : pyEq c1 c0 = true
    · have hstep : pageStep ep c0 (server (urlFor ep c0)) =
          ⟨c0, items0.map (makeRow ep.headers), false⟩ := by
        rw [hstep0, if_pos he]
      rw [runLoop, hstep]
      show (1 : Nat) ≤ 2
      omega
    · by_cases hl : items0.length < 50
      · have hstep : pageStep ep c0 (server (urlFor ep c0)) =
            ⟨c1, items0.map (makeRow ep.headers), false⟩ := by
          rw [hstep0, if_neg he, if_pos hl]
        rw [runLoop, hstep]
        show (1 : Nat) ≤ 2
        omega
      · have hstep : pageStep ep c0 (server (urlFor ep c0)) =
            ⟨c1, items0.map (makeRow ep.headers), true⟩ := by
          rw [hstep0, if_neg he, if_neg hl]
        rw [runLoop, hstep]
        show (runLoop ep server n c1 (rows ++ items0.map (makeRow ep.headers))).1 + 1 ≤ 2
        cases n with
        | zero =>
          show (0 : Nat) + 1 ≤ 2
          omega
        | succ m =>
          obtain ⟨items1, hi1⟩ := reported_pageItems ep _ c2 h2
          have hstep1 := pageStep_of_reported ep c1 (server (urlFor ep c1)) c2 items1 h2 hi1
          have hstep1f : pageStep ep c1 (server (urlFor ep c1)) =
              ⟨c1, items1.map (makeRow ep.headers), false⟩ := by
            rw [hstep1, if_pos h3]
          rw [runLoop, hstep1f]
          show (1 : Nat) + 1 ≤ 2
          omega

/-- A mock server whose every page reports the constant cursor
`LastID = 5` with full 50-record pages. -/
def constCursorServer : String → Option JVal := fun _ =>
  some (.obj
    [("Clients", .arr (List.replicate 50 c3rec1)),
     ("MetaCollectionResult", .obj [("LastID", .int 5)])])

/-- Witness for C2: against the constant-cursor server, starting from
cursor 0 with fuel for 100 fetches, at most two fetches happen. -/
theorem paginator_identical_cursor_stops_witness :
    (runLoop clientsEp constCursorServer 100 (.int 0) []).1 ≤ 2 :=
  paginator_identical_cursor_stops clientsEp constCursorServer 100 (.int 0) []
    (.int 5) (.int 5) rfl rfl rfl

/-- Claim C4: a page holding exactly 49 records together with a
cursor-advance (a reported cursor not Python-equal to the current one)
ends the loop after that single fetch; a page holding exactly 50 such
records makes the loop issue a second fetch. -/
theorem page_size_termination (ep : EndpointCfg)
    (server : String → Option JVal) (fuel : Nat) (c0 : JVal)
    (rows : List Row) (items : List JVal) (c1 : JVal)
    (hi : pageItems ep (server (urlFor ep c0)) = some items)
    (hr : reported ep (server (urlFor ep c0)) = some c1)
    (hne : pyEq c1 c0 = false) :
    (items.length = 49 → (runLoop ep server (fuel + 1) c0 rows).1 = 1) ∧
    (items.length = 50 → 2 ≤ (runLoop ep server (fuel + 2) c0 rows).1) := by
  have hstep := pageStep_of_reported ep c0 (server (urlFor ep c0)) c1 items hr hi
  have hne2 : ¬ (pyEq c1 c0 = true) := by simp [hne]
  constructor
  · intro h49
    have hl : items.length < 50 := by omega
    have hstepf : pageStep ep c0 (server (urlFor ep c0)) =
        ⟨c1, items.map (makeRow ep.headers), false⟩ := by
      rw [hstep, if_neg hne2, if_pos hl]
    rw [runLoop, hstepf]
    rfl
  · intro h50
    have hl : ¬ (items.length < 50) := by omega
    have hstept : pageStep ep c0 (server (urlFor ep c0)) =
        ⟨c1, items.map (makeRow ep.headers), true⟩ := by
      rw [hstep, if_neg hne2, if_neg hl]
    rw [runLoop, hstept]
    show 2 ≤ (runLoop ep server (fuel + 1) c1 (rows ++ items.map (makeRow ep.headers))).1 + 1
    have hpos := runLoop_fetches_pos ep server fuel c1 (rows ++ items.map (makeRow ep.headers))
    omega

/-- A mock server answering the first Clients fetch with a 49-record
page that reports `LastID = 9`. -/
def page49Server : String → Option JVal := fun url =>
  if url = urlFor clientsEp (.int 0)
  then some (.obj
    [("Clients", .arr (List.replicate 49 c3rec1)),
     ("MetaCollectionResult", .obj [("LastID", .int 9)])])
  else none

/-- A mock server answering the first Clients fetch with a 50-record
page that reports `LastID = 9`. -/
def page50Server : String → Option JVal := fun url =>
  if url = urlFor clientsEp (.int 0)
  then some (.obj
    [("Clients", .arr (List.replicate 50 c3rec1)),
     ("MetaCollectionResult", .obj [("LastID", .int 9)])])
  else none

/-- Witness for C4: against the 49-record page the loop stops after one
fetch; against the 50-record page it issues a second fetch. -/
theorem page_size_termination_witness :
    ((runLoop clientsEp page49Server 4 (.int 0) []).1 = 1) ∧
    (2 ≤ (runLoop clientsEp page50Server 5 (.int 0) []).1) :=
  ⟨(page_size_termination clientsEp page49Server 3 (.int 0) []
      (List.replicate 49 c3rec1) (.int 9) rfl rfl rfl).1 rfl,
   (page_size_termination clientsEp page50Server 3 (.int 0) []
      (List.replicate 50 c3rec1) (.int 9) rfl rfl rfl).2 rfl⟩

/-! ## Claim C3: the end-to-end Clients mock scenario -/

/-- Counterexample to C3 as stated: in the spec's scenario (page 1
with 2 records and `LastID = 42`, page 2 lacking the result key) the
run issues exactly one fetch, not the claimed two: after appending the
2 records and advancing the cursor to 42, the `len(items) < 50` check
breaks the loop before any second fetch. -/
theorem clients_scenario_not_two_fetches :
    (process_data_async clientsEp c3Server 10 (.int 0)).2.2.2 = 1 ∧
    ¬ ((process_data_async clientsEp c3Server 10 (.int 0)).2.2.2 = 2) := by
  constructor
  · rfl
  · intro h
    rw [show (process_data_async clientsEp c3Server 10 (.int 0)).2.2.2 = 1 from rfl] at h
    omega

/-- Claim C3 (amended): in the spec's scenario the run produces the
sheet with the header row plus exactly 2 data rows and returns final
cursor 42, but it performs exactly one fetch — the page-size check
(2 < 50) terminates the loop on the first page, so the
result-key-lacking second page is never requested. -/
theorem clients_scenario_result :
    (process_data_async clientsEp c3Server 10 (.int 0)).1 = "Repsly_Clients_Export.xlsx" ∧
    (process_data_async clientsEp c3Server 10 (.int 0)).2.1 = JVal.int 42 ∧
    (process_data_async clientsEp c3Server 10 (.int 0)).2.2.1.length = 3 ∧
    (process_data_async clientsEp c3Server 10 (.int 0)).2.2.1.head? =
      some (clientsHeaders.map (fun h => some (JVal.str h))) ∧
    (process_data_async clientsEp c3Server 10 (.int 0)).2.2.2 = 1 :=
  ⟨rfl, rfl, rfl, rfl, rfl⟩

/-! ## Claim C5: the Field Projector -/

/-- Claim C5: for every JSON record (an object) and every column list,
the projected row has exactly the column list's length, and every
column absent from the record projects to null.  The projection is a
total function — no combination of value types (string, number,
boolean, null, array, object) can make it raise. -/
theorem field_projector_row (record : List (String × JVal)) (columns : List String) :
    (makeRow columns (JVal.obj record)).length = columns.length ∧
    (∀ h, h ∈ columns → (∀ p ∈ record, p.1 ≠ h) →
      process_field (pyGet (JVal.obj record) h) = none) := by
  constructor
  · exact List.length_map columns _
  · intro h _ hk
    have : pyGet (JVal.obj record) h = none := lookup_none_of_no_key h record hk
    rw [this]
    rfl

/-- Witness for C5: a record holding each JSON value type projected
onto columns including one absent key. -/
theorem field_projector_row_witness :
    (makeRow ["A", "B", "C", "D", "E", "F", "Missing"]
      (JVal.obj [("A", .str "x"), ("B", .int 3), ("C", .bool true),
                 ("D", .null), ("E", .arr [.int 1, .int 2]),
                 ("F", .obj [("k", .int 9)])])).length = 7 ∧
    process_field (pyGet
      (JVal.obj [("A", .str "x"), ("B", .int 3), ("C", .bool true),
                 ("D", .null), ("E", .arr [.int 1, .int 2]),
                 ("F", .obj [("k", .int 9)])]) "Missing") = none := by
  have h := field_projector_row
    [("A", .str "x"), ("B", .int 3), ("C", .bool true),
     ("D", .null), ("E", .arr [.int 1, .int 2]), ("F", .obj [("k", .int 9)])]
    ["A", "B", "C", "D", "E", "F", "Missing"]
  exact ⟨h.1, h.2 "Missing" (by simp) (by intro p hp; fin_cases hp <;> simp)⟩

/-! ## Claim C6: array projection and separator counting -/

theorem countSub_append_sep (a b : List Char) :
    countSub sepPat (a ++ ',' :: ' ' :: b) =
      countSub sepPat a + (1 + countSub sepPat b) := by
  induction a with
  | nil => simp [countSub, sepPat, List.isPrefixOf]
  | cons c a ih =>
    cases a with
    | nil => simp [countSub, sepPat, List.isPrefixOf]
    | cons d a2 =>
      simp only [countSub, List.cons_append, List.append_eq] at ih ⊢
      have hpre : List.isPrefixOf sepPat (c :: d :: (a2 ++ ',' :: ' ' :: b)) =
          List.isPrefixOf sepPat (c :: d :: a2) := by
        simp [sepPat, List.isPrefixOf]
      simp only [hpre]
      omega

theorem countSep_append_sep (x rest : String) :
    countSep (x ++ ", " ++ rest) = countSep x + (1 + countSep rest) := by
  unfold countSep
  have h : (x ++ ", " ++ rest).toList = x.toList ++ ',' :: ' ' :: rest.toList := by
    simp [String.toList, String.data_append]
  rw [h, countSub_append_sep]

/-- Claim C6 (amended): a column holding a `k`-element array projects
to the `", "`-join of the elements' string representations, and that
string contains `k − 1` separator occurrences *plus* every `", "`
occurrence already inside the elements' own string representations —
so exactly `k − 1` only when no element's representation itself
contains `", "`. -/
theorem array_join_sep_count (xs : List JVal) :
    process_field (some (.arr xs)) =
      some (.str (pyJoin ", " (xs.map pyStr))) ∧
    countSep (pyJoin ", " (xs.map pyStr)) =
      (xs.length - 1) + (xs.map (fun x => countSep (pyStr x))).sum := by
  refine ⟨rfl, ?_⟩
  induction xs with
  | nil => rfl
  | cons x xs ih =>
    cases xs with
    | nil => simp [pyJoin, countSep]
    | cons y rest =>
      have hj : pyJoin ", " ((x :: y :: rest).map pyStr) =
          pyStr x ++ ", " ++ pyJoin ", " ((y :: rest).map pyStr) := rfl
      rw [hj, countSep_append_sep, ih]
      simp [List.length_cons]
      omega

/-- Counterexample to C6 as stated: the single-element array
`["a, b"]` (k = 1) projects to the string `"a, b"`, which contains one
occurrence of `", "`, not the claimed k − 1 = 0: separators inside an
element's own string representation are indistinguishable from the
join's separators. -/
theorem array_join_sep_count_cex :
    process_field (some (JVal.arr [JVal.str "a, b"])) = some (JVal.str "a, b") ∧
    ¬ (countSep (pyJoin ", " ([JVal.str "a, b"].map pyStr)) =
        [JVal.str "a, b"].length - 1) := by
  constructor
  · rfl
  · intro h
    rw [show countSep (pyJoin ", " ([JVal.str "a, b"].map pyStr)) = 1 from rfl] at h
    simp at h

/-! ## Claim C8: per-endpoint exception isolation in the orchestrator -/

theorem lookup_map_setEntry (l : List (String × JVal)) (k m : String) (v : JVal)
    (hne : m ≠ k) :
    List.lookup m (l.map (fun p => if p.1 = k then (k, v) else p)) =
      List.lookup m l := by
  induction l with
  | nil => rfl
  | cons p rest ih =>
    obtain ⟨k2, v2⟩ := p
    by_cases hk2 : k2 = k
    · subst hk2
      simp only [List.map_cons, if_pos rfl]
      have h1 : (m == k2) = false := beq_eq_false_iff_ne.mpr hne
      simp [List.lookup, h1, ih]
    · simp only [List.map_cons, if_neg hk2]
      cases hmk : m == k2 <;> simp [List.lookup, hmk, ih]

theorem lookup_append_single (l : List (String × JVal)) (k m : String) (v : JVal)
    (hne : m ≠ k) :
    List.lookup m (l ++ [(k, v)]) = List.lookup m l := by
  induction l with
  | nil => simp [List.lookup, beq_eq_false_iff_ne.mpr hne]
  | cons p rest ih =>
    cases hmk : m == p.1 <;> simp [List.lookup, hmk, ih]

theorem lookup_setKey_ne (l : List (String × JVal)) (k m : String) (v : JVal)
    (hne : m ≠ k) : List.lookup m (setKey l k v) = List.lookup m l := by
  unfold setKey
  by_cases hany : l.any (fun p => p.1 = k)
  · simp only [hany, if_true]
    exact lookup_map_setEntry l k m v hne
  · simp only [hany, if_false]
    exact lookup_append_single l k m v hne

theorem process_module_fst (outcomes : String → JVal → Except Unit (String × Option JVal))
    (isKnown : String → Bool) (last_ids : List (String × JVal)) (x : String) :
    (process_module outcomes isKnown last_ids x).1 = x := by
  unfold process_module
  split
  · split <;> rfl
  · rfl

theorem mainCollect_skip (pm : String → String × Option String × Option JVal)
    (modules : List String) (m : String) (hm : pm m = (m, none, none)) :
    ∀ acc, List.foldl collectStep acc (modules.map pm) =
      List.foldl collectStep acc ((modules.filter (fun x => x ≠ m)).map pm) := by
  induction modules with
  | nil => intro acc; rfl
  | cons x xs ih =>
    intro acc
    by_cases hx : x = m
    · subst hx
      simp only [List.map_cons, List.foldl_cons, List.filter_cons]
      rw [hm]
      have hstep : collectStep acc (x, none, none) = acc := rfl
      rw [hstep]
      simp only [show (decide (x ≠ x)) = false by simp]
      exact ih acc
    · have hfil : (x :: xs).filter (fun y => y ≠ m) =
          x :: xs.filter (fun y => y ≠ m) := by
        simp [List.filter_cons, hx]
      rw [hfil]
      simp only [List.map_cons, List.foldl_cons]
      exact ih (collectStep acc (pm x))

theorem mainCollect_lookup_unchanged
    (results : List (String × Option String × Option JVal)) (m : String)
    (hres : ∀ r ∈ results, r.1 = m → r.2.2 = none) :
    ∀ acc : List String × List (String × JVal),
      List.lookup m (List.foldl collectStep acc results).2 = List.lookup m acc.2 := by
  induction results with
  | nil => intro acc; rfl
  | cons r rs ih =>
    intro acc
    simp only [List.foldl_cons]
    rw [ih (fun q hq => hres q (List.mem_cons_of_mem _ hq)) (collectStep acc r)]
    obtain ⟨name, fn2, nl2⟩ := r
    cases nl2 with
    | none => rfl
    | some nl =>
      have hname : name ≠ m := by
        intro he
        have h2 := hres (name, fn2, some nl) (by simp) (by simp [he])
        simp at h2
      show List.lookup m (setKey acc.2 name nl) = List.lookup m acc.2
      exact lookup_setKey_ne acc.2 name m nl (fun he => hname he.symm)

/-- Claim C8: if one endpoint's processing function raises, the
exception is caught inside `process_module` and mapped to
`(module, None, None)`; consequently the endpoint contributes no
filename to the combined workbook (dropping the module from the run
leaves the collected results unchanged), its entry in the persisted
cursor mapping keeps the loaded value, and the result of every other
module is independent of the failing module's behaviour. -/
theorem module_exception_isolated
    (outcomes : String → JVal → Except Unit (String × Option JVal))
    (isKnown : String → Bool) (modules : List String)
    (last_ids : List (String × JVal)) (m : String)
    (herr : ∀ cur, outcomes m cur = .error ()) :
    process_module outcomes isKnown last_ids m = (m, none, none) ∧
    mainCollect (modules.map (process_module outcomes isKnown last_ids)) last_ids =
      mainCollect ((modules.filter (fun x => x ≠ m)).map
        (process_module outcomes isKnown last_ids)) last_ids ∧
    List.lookup m
        (mainCollect (modules.map (process_module outcomes isKnown last_ids)) last_ids).2 =
      List.lookup m last_ids ∧
    (∀ (outcomes2 : String → JVal → Except Unit (String × Option JVal)) (m2 : String),
      m2 ≠ m → (∀ cur, outcomes2 m2 cur = outcomes m2 cur) →
      process_module outcomes2 isKnown last_ids m2 =
        process_module outcomes isKnown last_ids m2) := by
  have part1 : process_module outcomes isKnown last_ids m = (m, none, none) := by
    unfold process_module
    by_cases hk : isKnown m = true
    · rw [if_pos hk, herr]
    · rw [if_neg hk]
  refine ⟨part1, ?_, ?_, ?_⟩
  · exact mainCollect_skip (process_module outcomes isKnown last_ids) modules m part1
      ([], last_ids)
  · have hres : ∀ r ∈ modules.map (process_module outcomes isKnown last_ids),
        r.1 = m → r.2.2 = none := by
      intro r hr h1
      obtain ⟨x, _, hpx⟩ := List.mem_map.mp hr
      have hx : x = m := by
        rw [← hpx] at h1
        rw [process_module_fst outcomes isKnown last_ids x] at h1
        exact h1
      rw [← hpx, hx, part1]
    exact mainCollect_lookup_unchanged _ m hres ([], last_ids)
  · intro outcomes2 m2 _ ho
    unfold process_module
    rw [ho]

/-- A concrete outcome table for the C8 witness: the clients module
always raises, the visits module succeeds. -/
def c8Outcomes : String → JVal → Except Unit (String × Option JVal) := fun mod cur =>
  if mod = "clients" then .error ()
  else .ok ("Repsly_" ++ mod ++ "_Export.xlsx", some cur)

def c8Known : String → Bool := fun mod => mod = "clients" || mod = "visits"

/-- Witness for C8: with the clients module raising, `process_module`
returns `("clients", None, None)`. -/
theorem module_exception_isolated_witness :
    process_module c8Outcomes c8Known [("clients", .int 7)] "clients" =
      ("clients", none, none) :=
  (module_exception_isolated c8Outcomes c8Known ["clients", "visits"]
    [("clients", .int 7)] "clients" (fun _ => rfl)).1

/-! ## Claim C1: contents of the combined workbook -/

theorem mem_combine_foldl (fs : String → Option (List Sheet)) :
    ∀ (l : List String) (acc : List Sheet) (s : Sheet),
      s ∈ l.foldl (fun acc2 fn =>
        match fs fn with
        | some sheets => acc2 ++ sheets
        | none => acc2) acc →
      s ∈ acc ∨ ∃ fn, fn ∈ l ∧ ∃ wb, fs fn = some wb ∧ s ∈ wb := by
  intro l
  induction l with
  | nil => intro acc s h; exact Or.inl h
  | cons x xs ih =>
    intro acc s h
    simp only [List.foldl_cons] at h
    rcases ih _ s h with h1 | ⟨fn, hfn, wb, hw, hsw⟩
    · cases hfs : fs x with
      | some sheets =>
        rw [hfs] at h1
        rcases List.mem_append.mp h1 with h2 | h2
        · exact Or.inl h2
        · exact Or.inr ⟨x, by simp, sheets, hfs, h2⟩
      | none =>
        rw [hfs] at h1
        exact Or.inl h1
    · exact Or.inr ⟨fn, List.mem_cons_of_mem _ hfn, wb, hw, hsw⟩

/-- Claim C1 (amended): every sheet of the combined workbook is copied
from one of the listed per-endpoint files, or is the `"Empty"`
placeholder synthesized when nothing was combined — in particular no
cursor-summary sheet is ever added to the workbook (the
endpoint→cursor mapping is persisted to the separate `last_ids.json`
file by `save_last_ids` instead). -/
theorem combined_workbook_sheets_from_files
    (fs : String → Option (List Sheet)) (filenames : List String) (s : Sheet)
    (hs : s ∈ create_combined_workbook fs filenames) :
    (∃ fn, fn ∈ filenames ∧ ∃ wb, fs fn = some wb ∧ s ∈ wb) ∨
      s = ("Empty", []) := by
  simp only [create_combined_workbook] at hs
  split at hs
  · simp at hs
    exact Or.inr hs
  · rcases mem_combine_foldl fs filenames [] s hs with h1 | h2
    · simp at h1
    · exact Or.inl h2

/-- A one-file file system for the C1 witness. -/
def fsW : String → Option (List Sheet) := fun fn =>
  if fn = "w.xlsx" then some [("S", [])] else none

/-- Witness for C1 (amended): the single sheet of the combined
workbook built from `fsW` comes from the listed file. -/
theorem combined_workbook_sheets_from_files_witness :
    (∃ fn, fn ∈ ["w.xlsx"] ∧ ∃ wb, fsW fn = some wb ∧
      (("S", ([] : List Row)) : Sheet) ∈ wb) ∨
      (("S", ([] : List Row)) : Sheet) = ("Empty", []) :=
  combined_workbook_sheets_from_files fsW ["w.xlsx"] ("S", [])
    (by simp [create_combined_workbook, fsW])

/-- The file system of the C1 counterexample run: the Clients export
file holds one sheet with a one-column header row and one one-column
data row. -/
def fsC1 : String → Option (List Sheet) := fun fn =>
  if fn = "Repsly_Clients_Export.xlsx"
  then some [("Clients", [[some (JVal.str "ClientID")], [some (JVal.int 1)]])]
  else none

/-- The gathered per-module results of the C1 counterexample run: the
clients module produced its file and the new cursor 42. -/
def resultsC1 : List (String × Option String × Option JVal) :=
  [("clients", some "Repsly_Clients_Export.xlsx", some (JVal.int 42))]

/-- Counterexample to C1 as stated: in a run whose only endpoint
produced a file and the cursor 42, the combined workbook `main` saves
consists of exactly the per-endpoint sheet `"Clients"` — no sheet
contains any two-column row at all, so no reserved cursor-summary
sheet listing endpoint→cursor pairs exists in the workbook. -/
theorem combined_workbook_no_cursor_sheet :
    (mainCombined fsC1 resultsC1 []).map Prod.fst = ["Clients"] ∧
    ∀ sh ∈ mainCombined fsC1 resultsC1 [], ∀ r ∈ sh.2, r.length ≠ 2 := by
  have hc : mainCombined fsC1 resultsC1 [] =
      [("Clients", [[some (JVal.str "ClientID")], [some (JVal.int 1)]])] := rfl
  constructor
  · rw [hc]
    rfl
  · intro sh hsh r hr
    rw [hc] at hsh
    simp only [List.mem_singleton] at hsh
    subst hsh
    simp only [List.mem_cons, List.mem_singleton] at hr
    rcases hr with hr | hr | hr
    · subst hr; simp
    · subst hr; simp
    · simp at hr

end Repsly
